import Mathlib

set_option maxRecDepth 16384

/-!
Verification of the EMŠO / Številka extraction tool (`src/main.py`).

Strings are modelled as `List Char`.  Python's character classes are
modelled by their full Unicode tables (Unicode 14.0, as shipped by
CPython): the regex `\d` as category Nd (`ndStarts`), the regex `\w` as
`str.isalnum()` plus underscore (`alnumRanges`), and `str.strip()`'s
whitespace as `str.isspace()` (`pySpaceCodes`).
-/

/-- The code points Python's `str.isspace()` accepts (Unicode 14.0, CPython
`Py_UNICODE_ISSPACE`); `str.strip()` with no argument removes exactly
these. -/
def pySpaceCodes : List Nat :=
[9, 10, 11, 12, 13, 28, 29, 30, 31, 32, 133, 160,
  5760, 8192, 8193, 8194, 8195, 8196, 8197, 8198, 8199, 8200, 8201, 8202,
  8232, 8233, 8239, 8287, 12288]

/-- A character `str.strip()` removes. -/
def isPySpace (c : Char) : Bool := pySpaceCodes.contains c.toNat

/-- The first code points of the runs of ten that make up Unicode category
Nd (Unicode 14.0): every decimal digit lies in exactly one run
`[s, s + 9]` and its decimal value is its offset in the run. -/
def ndStarts : List Nat :=
[48, 1632, 1776, 1984, 2406, 2534, 2662, 2790, 2918, 3046,
  3174, 3302, 3430, 3558, 3664, 3792, 3872, 4160, 4240, 6112,
  6160, 6470, 6608, 6784, 6800, 6992, 7088, 7232, 7248, 42528,
  43216, 43264, 43472, 43504, 43600, 44016, 65296, 66720, 68912, 69734,
  69872, 69942, 70096, 70384, 70736, 70864, 71248, 71360, 71472, 71904,
  72016, 72784, 73040, 73120, 92768, 92864, 93008, 120782, 120792, 120802,
  120812, 120822, 123200, 123632, 125264, 130032]

/-- The start of the Nd run containing `c`, when `c` is a decimal digit. -/
def ndStart (c : Char) : Option Nat :=
  ndStarts.find? (fun s => decide (s ≤ c.toNat) && decide (c.toNat < s + 10))

/-- A Unicode decimal digit (category Nd): what the regex `\d` matches in
Python's default Unicode mode. -/
def isDigitNd (c : Char) : Bool := (ndStart c).isSome

/-- Python's `int(c)` applied to a single decimal-digit character: its
decimal value, the offset of `c` in its Nd run (0 as an unused default on
non-digits, where `int` raises instead). -/
def digitVal (c : Char) : Nat :=
  match ndStart c with
  | some s => c.toNat - s
  | none => 0

/-- The code-point ranges Python's `str.isalnum()` accepts (Unicode 14.0,
CPython `Py_UNICODE_ISALNUM`: alphabetic, decimal, digit or numeric). -/
def alnumRanges : List (Nat × Nat) :=
[(48, 57), (65, 90), (97, 122), (170, 170), (178, 179), (181, 181),
  (185, 186), (188, 190), (192, 214), (216, 246), (248, 705), (710, 721),
  (736, 740), (748, 748), (750, 750), (880, 884), (886, 887), (890, 893),
  (895, 895), (902, 902), (904, 906), (908, 908), (910, 929), (931, 1013),
  (1015, 1153), (1162, 1327), (1329, 1366), (1369, 1369), (1376, 1416), (1488, 1514),
  (1519, 1522), (1568, 1610), (1632, 1641), (1646, 1647), (1649, 1747), (1749, 1749),
  (1765, 1766), (1774, 1788), (1791, 1791), (1808, 1808), (1810, 1839), (1869, 1957),
  (1969, 1969), (1984, 2026), (2036, 2037), (2042, 2042), (2048, 2069), (2074, 2074),
  (2084, 2084), (2088, 2088), (2112, 2136), (2144, 2154), (2160, 2183), (2185, 2190),
  (2208, 2249), (2308, 2361), (2365, 2365), (2384, 2384), (2392, 2401), (2406, 2415),
  (2417, 2432), (2437, 2444), (2447, 2448), (2451, 2472), (2474, 2480), (2482, 2482),
  (2486, 2489), (2493, 2493), (2510, 2510), (2524, 2525), (2527, 2529), (2534, 2545),
  (2548, 2553), (2556, 2556), (2565, 2570), (2575, 2576), (2579, 2600), (2602, 2608),
  (2610, 2611), (2613, 2614), (2616, 2617), (2649, 2652), (2654, 2654), (2662, 2671),
  (2674, 2676), (2693, 2701), (2703, 2705), (2707, 2728), (2730, 2736), (2738, 2739),
  (2741, 2745), (2749, 2749), (2768, 2768), (2784, 2785), (2790, 2799), (2809, 2809),
  (2821, 2828), (2831, 2832), (2835, 2856), (2858, 2864), (2866, 2867), (2869, 2873),
  (2877, 2877), (2908, 2909), (2911, 2913), (2918, 2927), (2929, 2935), (2947, 2947),
  (2949, 2954), (2958, 2960), (2962, 2965), (2969, 2970), (2972, 2972), (2974, 2975),
  (2979, 2980), (2984, 2986), (2990, 3001), (3024, 3024), (3046, 3058), (3077, 3084),
  (3086, 3088), (3090, 3112), (3114, 3129), (3133, 3133), (3160, 3162), (3165, 3165),
  (3168, 3169), (3174, 3183), (3192, 3198), (3200, 3200), (3205, 3212), (3214, 3216),
  (3218, 3240), (3242, 3251), (3253, 3257), (3261, 3261), (3293, 3294), (3296, 3297),
  (3302, 3311), (3313, 3314), (3332, 3340), (3342, 3344), (3346, 3386), (3389, 3389),
  (3406, 3406), (3412, 3414), (3416, 3425), (3430, 3448), (3450, 3455), (3461, 3478),
  (3482, 3505), (3507, 3515), (3517, 3517), (3520, 3526), (3558, 3567), (3585, 3632),
  (3634, 3635), (3648, 3654), (3664, 3673), (3713, 3714), (3716, 3716), (3718, 3722),
  (3724, 3747), (3749, 3749), (3751, 3760), (3762, 3763), (3773, 3773), (3776, 3780),
  (3782, 3782), (3792, 3801), (3804, 3807), (3840, 3840), (3872, 3891), (3904, 3911),
  (3913, 3948), (3976, 3980), (4096, 4138), (4159, 4169), (4176, 4181), (4186, 4189),
  (4193, 4193), (4197, 4198), (4206, 4208), (4213, 4225), (4238, 4238), (4240, 4249),
  (4256, 4293), (4295, 4295), (4301, 4301), (4304, 4346), (4348, 4680), (4682, 4685),
  (4688, 4694), (4696, 4696), (4698, 4701), (4704, 4744), (4746, 4749), (4752, 4784),
  (4786, 4789), (4792, 4798), (4800, 4800), (4802, 4805), (4808, 4822), (4824, 4880),
  (4882, 4885), (4888, 4954), (4969, 4988), (4992, 5007), (5024, 5109), (5112, 5117),
  (5121, 5740), (5743, 5759), (5761, 5786), (5792, 5866), (5870, 5880), (5888, 5905),
  (5919, 5937), (5952, 5969), (5984, 5996), (5998, 6000), (6016, 6067), (6103, 6103),
  (6108, 6108), (6112, 6121), (6128, 6137), (6160, 6169), (6176, 6264), (6272, 6276),
  (6279, 6312), (6314, 6314), (6320, 6389), (6400, 6430), (6470, 6509), (6512, 6516),
  (6528, 6571), (6576, 6601), (6608, 6618), (6656, 6678), (6688, 6740), (6784, 6793),
  (6800, 6809), (6823, 6823), (6917, 6963), (6981, 6988), (6992, 7001), (7043, 7072),
  (7086, 7141), (7168, 7203), (7232, 7241), (7245, 7293), (7296, 7304), (7312, 7354),
  (7357, 7359), (7401, 7404), (7406, 7411), (7413, 7414), (7418, 7418), (7424, 7615),
  (7680, 7957), (7960, 7965), (7968, 8005), (8008, 8013), (8016, 8023), (8025, 8025),
  (8027, 8027), (8029, 8029), (8031, 8061), (8064, 8116), (8118, 8124), (8126, 8126),
  (8130, 8132), (8134, 8140), (8144, 8147), (8150, 8155), (8160, 8172), (8178, 8180),
  (8182, 8188), (8304, 8305), (8308, 8313), (8319, 8329), (8336, 8348), (8450, 8450),
  (8455, 8455), (8458, 8467), (8469, 8469), (8473, 8477), (8484, 8484), (8486, 8486),
  (8488, 8488), (8490, 8493), (8495, 8505), (8508, 8511), (8517, 8521), (8526, 8526),
  (8528, 8585), (9312, 9371), (9450, 9471), (10102, 10131), (11264, 11492), (11499, 11502),
  (11506, 11507), (11517, 11517), (11520, 11557), (11559, 11559), (11565, 11565), (11568, 11623),
  (11631, 11631), (11648, 11670), (11680, 11686), (11688, 11694), (11696, 11702), (11704, 11710),
  (11712, 11718), (11720, 11726), (11728, 11734), (11736, 11742), (11823, 11823), (12293, 12295),
  (12321, 12329), (12337, 12341), (12344, 12348), (12353, 12438), (12445, 12447), (12449, 12538),
  (12540, 12543), (12549, 12591), (12593, 12686), (12690, 12693), (12704, 12735), (12784, 12799),
  (12832, 12841), (12872, 12879), (12881, 12895), (12928, 12937), (12977, 12991), (13312, 19903),
  (19968, 42124), (42192, 42237), (42240, 42508), (42512, 42539), (42560, 42606), (42623, 42653),
  (42656, 42735), (42775, 42783), (42786, 42888), (42891, 42954), (42960, 42961), (42963, 42963),
  (42965, 42969), (42994, 43009), (43011, 43013), (43015, 43018), (43020, 43042), (43056, 43061),
  (43072, 43123), (43138, 43187), (43216, 43225), (43250, 43255), (43259, 43259), (43261, 43262),
  (43264, 43301), (43312, 43334), (43360, 43388), (43396, 43442), (43471, 43481), (43488, 43492),
  (43494, 43518), (43520, 43560), (43584, 43586), (43588, 43595), (43600, 43609), (43616, 43638),
  (43642, 43642), (43646, 43695), (43697, 43697), (43701, 43702), (43705, 43709), (43712, 43712),
  (43714, 43714), (43739, 43741), (43744, 43754), (43762, 43764), (43777, 43782), (43785, 43790),
  (43793, 43798), (43808, 43814), (43816, 43822), (43824, 43866), (43868, 43881), (43888, 44002),
  (44016, 44025), (44032, 55203), (55216, 55238), (55243, 55291), (63744, 64109), (64112, 64217),
  (64256, 64262), (64275, 64279), (64285, 64285), (64287, 64296), (64298, 64310), (64312, 64316),
  (64318, 64318), (64320, 64321), (64323, 64324), (64326, 64433), (64467, 64829), (64848, 64911),
  (64914, 64967), (65008, 65019), (65136, 65140), (65142, 65276), (65296, 65305), (65313, 65338),
  (65345, 65370), (65382, 65470), (65474, 65479), (65482, 65487), (65490, 65495), (65498, 65500),
  (65536, 65547), (65549, 65574), (65576, 65594), (65596, 65597), (65599, 65613), (65616, 65629),
  (65664, 65786), (65799, 65843), (65856, 65912), (65930, 65931), (66176, 66204), (66208, 66256),
  (66273, 66299), (66304, 66339), (66349, 66378), (66384, 66421), (66432, 66461), (66464, 66499),
  (66504, 66511), (66513, 66517), (66560, 66717), (66720, 66729), (66736, 66771), (66776, 66811),
  (66816, 66855), (66864, 66915), (66928, 66938), (66940, 66954), (66956, 66962), (66964, 66965),
  (66967, 66977), (66979, 66993), (66995, 67001), (67003, 67004), (67072, 67382), (67392, 67413),
  (67424, 67431), (67456, 67461), (67463, 67504), (67506, 67514), (67584, 67589), (67592, 67592),
  (67594, 67637), (67639, 67640), (67644, 67644), (67647, 67669), (67672, 67702), (67705, 67742),
  (67751, 67759), (67808, 67826), (67828, 67829), (67835, 67867), (67872, 67897), (67968, 68023),
  (68028, 68047), (68050, 68096), (68112, 68115), (68117, 68119), (68121, 68149), (68160, 68168),
  (68192, 68222), (68224, 68255), (68288, 68295), (68297, 68324), (68331, 68335), (68352, 68405),
  (68416, 68437), (68440, 68466), (68472, 68497), (68521, 68527), (68608, 68680), (68736, 68786),
  (68800, 68850), (68858, 68899), (68912, 68921), (69216, 69246), (69248, 69289), (69296, 69297),
  (69376, 69415), (69424, 69445), (69457, 69460), (69488, 69505), (69552, 69579), (69600, 69622),
  (69635, 69687), (69714, 69743), (69745, 69746), (69749, 69749), (69763, 69807), (69840, 69864),
  (69872, 69881), (69891, 69926), (69942, 69951), (69956, 69956), (69959, 69959), (69968, 70002),
  (70006, 70006), (70019, 70066), (70081, 70084), (70096, 70106), (70108, 70108), (70113, 70132),
  (70144, 70161), (70163, 70187), (70272, 70278), (70280, 70280), (70282, 70285), (70287, 70301),
  (70303, 70312), (70320, 70366), (70384, 70393), (70405, 70412), (70415, 70416), (70419, 70440),
  (70442, 70448), (70450, 70451), (70453, 70457), (70461, 70461), (70480, 70480), (70493, 70497),
  (70656, 70708), (70727, 70730), (70736, 70745), (70751, 70753), (70784, 70831), (70852, 70853),
  (70855, 70855), (70864, 70873), (71040, 71086), (71128, 71131), (71168, 71215), (71236, 71236),
  (71248, 71257), (71296, 71338), (71352, 71352), (71360, 71369), (71424, 71450), (71472, 71483),
  (71488, 71494), (71680, 71723), (71840, 71922), (71935, 71942), (71945, 71945), (71948, 71955),
  (71957, 71958), (71960, 71983), (71999, 71999), (72001, 72001), (72016, 72025), (72096, 72103),
  (72106, 72144), (72161, 72161), (72163, 72163), (72192, 72192), (72203, 72242), (72250, 72250),
  (72272, 72272), (72284, 72329), (72349, 72349), (72368, 72440), (72704, 72712), (72714, 72750),
  (72768, 72768), (72784, 72812), (72818, 72847), (72960, 72966), (72968, 72969), (72971, 73008),
  (73030, 73030), (73040, 73049), (73056, 73061), (73063, 73064), (73066, 73097), (73112, 73112),
  (73120, 73129), (73440, 73458), (73648, 73648), (73664, 73684), (73728, 74649), (74752, 74862),
  (74880, 75075), (77712, 77808), (77824, 78894), (82944, 83526), (92160, 92728), (92736, 92766),
  (92768, 92777), (92784, 92862), (92864, 92873), (92880, 92909), (92928, 92975), (92992, 92995),
  (93008, 93017), (93019, 93025), (93027, 93047), (93053, 93071), (93760, 93846), (93952, 94026),
  (94032, 94032), (94099, 94111), (94176, 94177), (94179, 94179), (94208, 100343), (100352, 101589),
  (101632, 101640), (110576, 110579), (110581, 110587), (110589, 110590), (110592, 110882), (110928, 110930),
  (110948, 110951), (110960, 111355), (113664, 113770), (113776, 113788), (113792, 113800), (113808, 113817),
  (119520, 119539), (119648, 119672), (119808, 119892), (119894, 119964), (119966, 119967), (119970, 119970),
  (119973, 119974), (119977, 119980), (119982, 119993), (119995, 119995), (119997, 120003), (120005, 120069),
  (120071, 120074), (120077, 120084), (120086, 120092), (120094, 120121), (120123, 120126), (120128, 120132),
  (120134, 120134), (120138, 120144), (120146, 120485), (120488, 120512), (120514, 120538), (120540, 120570),
  (120572, 120596), (120598, 120628), (120630, 120654), (120656, 120686), (120688, 120712), (120714, 120744),
  (120746, 120770), (120772, 120779), (120782, 120831), (122624, 122654), (123136, 123180), (123191, 123197),
  (123200, 123209), (123214, 123214), (123536, 123565), (123584, 123627), (123632, 123641), (124896, 124902),
  (124904, 124907), (124909, 124910), (124912, 124926), (124928, 125124), (125127, 125135), (125184, 125251),
  (125259, 125259), (125264, 125273), (126065, 126123), (126125, 126127), (126129, 126132), (126209, 126253),
  (126255, 126269), (126464, 126467), (126469, 126495), (126497, 126498), (126500, 126500), (126503, 126503),
  (126505, 126514), (126516, 126519), (126521, 126521), (126523, 126523), (126530, 126530), (126535, 126535),
  (126537, 126537), (126539, 126539), (126541, 126543), (126545, 126546), (126548, 126548), (126551, 126551),
  (126553, 126553), (126555, 126555), (126557, 126557), (126559, 126559), (126561, 126562), (126564, 126564),
  (126567, 126570), (126572, 126578), (126580, 126583), (126585, 126588), (126590, 126590), (126592, 126601),
  (126603, 126619), (126625, 126627), (126629, 126633), (126635, 126651), (127232, 127244), (130032, 130041),
  (131072, 173791), (173824, 177976), (177984, 178205), (178208, 183969), (183984, 191456), (194560, 195101),
  (196608, 201546)]

/-- A regex word character (`\w` in Python's default Unicode mode): an
alphanumeric character per `str.isalnum()`, or an underscore. -/
def isWordChar (c : Char) : Bool :=
  alnumRanges.any (fun r => decide (r.1 ≤ c.toNat) && decide (c.toNat ≤ r.2)) || c == '_'

/-- The weight table `emso_factor_map` from `validate_emso`. -/
def emso_factor_map : List Nat := [7, 6, 5, 4, 3, 2, 7, 6, 5, 4, 3, 2]

/-- Embeds `validate_emso` from `src/main.py`: the weighted sum of the first 12
digits is reduced mod 11 and complemented, then compared with digit 12. -/
def validate_emso (emso : List Char) : Bool :=
  let control_digit :=
    ((List.range 12).map
      (fun i => digitVal (emso.getD i ' ') * emso_factor_map.getD i 0)).sum % 11
  let control_digit := if control_digit = 0 then 0 else 11 - control_digit
  control_digit == digitVal (emso.getD 12 ' ')

/-- The 13 characters of `text` starting at position `i` are all decimal
digits (the `\d{13}` part of the pattern, category Nd). -/
def digitsRun (text : List Char) (i : Nat) : Bool :=
  (List.range 13).all (fun k => isDigitNd (text.getD (i + k) ' '))

/-- The regex `\b\d{13}\b` matches `text` at position `i`: thirteen digits
fit at `i`, with a word boundary before position `i` and one after position
`i + 12`.  Since a digit is itself a word character, those boundaries hold
exactly when the character before `i` (if any) and the character after
`i + 12` (if any) are non-word characters. -/
def matchAt (text : List Char) (i : Nat) : Bool :=
  decide (i + 13 ≤ text.length) &&
  (i == 0 || !isWordChar (text.getD (i - 1) ' ')) &&
  digitsRun text i &&
  (i + 13 == text.length || !isWordChar (text.getD (i + 13) ' '))

/-- All match positions of `\b\d{13}\b` in `text`, in left-to-right order. -/
def emsoPositions (text : List Char) : List Nat :=
  (List.range (text.length + 1)).filter (fun i => matchAt text i)

/-- Embeds `re.findall(r'\b\d{13}\b', text)` from `find_valid_emso`.  Two match
positions can never overlap (every character strictly inside a match is a
digit, hence a word character, so no word boundary can start or end a
second match there — `matchAt_no_overlap` below), so Python's
scan-and-advance search returns exactly the matching positions, in order. -/
def findall13 (text : List Char) : List (List Char) :=
  (emsoPositions text).map (fun i => (text.drop i).take 13)

/-- The two tuple shapes `find_valid_emso` can return: the not-found branch
returns the 3-tuple `(None, False, message)`, the found branch the 2-tuple
`(number, is_valid)`. -/
inductive FindResult where
  | notFound (msg : String)
  | found (emso : List Char) (is_valid : Bool)
deriving Repr, DecidableEq

/-- Embeds `find_valid_emso` from `src/main.py`. -/
def find_valid_emso (text : List Char) : FindResult :=
  match findall13 text with
  | [] => .notFound "No 13-digit number found"
  | first_number :: _ => .found first_number (validate_emso first_number)

/-- The label literal `"Številka:"` (9 characters). -/
def keyChars : List Char := "Številka:".toList

/-- Python's `text.find(pat)`: the index of the leftmost occurrence of `pat` in
`text`, or `none` where Python returns `-1`. -/
def findSub (text pat : List Char) : Option Nat :=
  (List.range (text.length + 1)).find? (fun i => pat.isPrefixOf (text.drop i))

/-- Python's `text.find("\n", start)`: the leftmost index that is at least `start`
and holds a newline, or `none` where Python returns `-1`. -/
def findNewlineFrom (text : List Char) (start : Nat) : Option Nat :=
  (List.range text.length).find?
    (fun j => decide (start ≤ j) && (text.getD j ' ' == '\n'))

/-- Python's `str.strip()`: remove leading and trailing whitespace
(`str.isspace()` characters). -/
def stripChars (s : List Char) : List Char :=
  ((s.dropWhile isPySpace).reverse.dropWhile isPySpace).reverse

/-- Embeds `get_stevilka` from `src/main.py`. -/
def get_stevilka (text : List Char) : Option (List Char) :=
  match findSub text keyChars with
  | none => none
  | some idx =>
    let start := idx + keyChars.length
    let e := match findNewlineFrom text start with
      | none => text.length
      | some e => e
    some (stripChars ((text.drop start).take (e - start)))

/-- The per-document output record built by `process_pdf`. -/
structure DocumentRecord where
  fileName : String
  stevilkaDokumenta : Option (List Char)
  emso : Option (List Char)
  emsoIsValid : Bool
deriving Repr, DecidableEq

/-- A raised Python exception. -/
inductive PyError where
  | valueError (msg : String)
deriving Repr, DecidableEq

/-- Embeds `process_pdf` from `src/main.py`, with the external PDF text extraction
(an external collaborator per the spec) factored out: it receives the
extracted text and the base file name directly.  The line
`emso, is_emso_valid = find_valid_emso(extracted_text)` unpacks exactly two
values, so the 3-tuple returned on the not-found path raises `ValueError`.
Returning `none` models `return None` for empty text ("no result"). -/
def process_pdf (fileName : String) (text : List Char) :
    Except PyError (Option DocumentRecord) :=
  if text.isEmpty then .ok none
  else
    match find_valid_emso text with
    | .notFound _ =>
      .error (.valueError "too many values to unpack (expected 2)")
    | .found emso is_emso_valid =>
      .ok (some { fileName := fileName,
                  stevilkaDokumenta := get_stevilka text,
                  emso := some emso,
                  emsoIsValid := is_emso_valid })

/-- The spec's weighted sum: `Σ digit[i] * weight[i]` for i in 0..11 with
weights `[7, 6, 5, 4, 3, 2, 7, 6, 5, 4, 3, 2]`.  Stated from the spec's
words, for comparison with `validate_emso`. -/
def spec_weighted_sum (d : Nat → Nat) : Nat :=
  d 0 * 7 + d 1 * 6 + d 2 * 5 + d 3 * 4 + d 4 * 3 + d 5 * 2 +
  d 6 * 7 + d 7 * 6 + d 8 * 5 + d 9 * 4 + d 10 * 3 + d 11 * 2

/-- The spec's control digit: `remainder = sum mod 11`;
`control = 0 if remainder == 0 else 11 - remainder`. -/
def spec_control (d : Nat → Nat) : Nat :=
  let remainder := spec_weighted_sum d % 11
  if remainder = 0 then 0 else 11 - remainder

/-- The control digit of a 12-digit prefix, per the spec's formula. -/
def emso_control_of (p : List Char) : Nat :=
  spec_control (fun i => digitVal (p.getD i ' '))

/-- The matching criterion exactly as the spec words it: a run of exactly
13 consecutive decimal digits bounded on each side by a NON-DIGIT character
or the start/end of the text.  Stated from the spec's words, for comparison
with `matchAt` (which the source's regex `\b` makes a word-boundary
condition instead). -/
def specDigitBounded (text : List Char) (i : Nat) : Bool :=
  decide (i + 13 ≤ text.length) &&
  (i == 0 || !isDigitNd (text.getD (i - 1) ' ')) &&
  digitsRun text i &&
  (i + 13 == text.length || !isDigitNd (text.getD (i + 13) ' '))

/-- The label `"Številka:"` occurs in `text` at position `i`. -/
def occursAt (text : List Char) (i : Nat) : Bool :=
  keyChars.isPrefixOf (text.drop i)

/-! ## Generic helper lemmas -/

/-- A `find?` over `List.range` finds nothing iff the predicate fails below `n`. -/
theorem findRange_none {n : Nat} {p : Nat → Bool} :
    (List.range n).find? p = none ↔ ∀ j, j < n → p j = false := by
  rw [List.find?_eq_none]
  constructor
  · intro h j hj
    have := h j (List.mem_range.mpr hj)
    simpa using this
  · intro h x hx
    simp [h x (List.mem_range.mp hx)]

/-- A `find?` over `List.range` returns the least index satisfying the
predicate. -/
theorem findRange_min {n i : Nat} {p : Nat → Bool}
    (h : (List.range n).find? p = some i) :
    i < n ∧ p i = true ∧ ∀ j, j < i → p j = false := by
  induction n with
  | zero => simp [List.range_zero] at h
  | succ m ih =>
    rw [List.range_succ, List.find?_append] at h
    cases hm : (List.range m).find? p with
    | some k =>
      rw [hm] at h
      simp at h
      subst h
      have := ih hm
      exact ⟨Nat.lt_succ_of_lt this.1, this.2.1, this.2.2⟩
    | none =>
      rw [hm, Option.none_or] at h
      cases hpm : p m with
      | false => simp [List.find?_cons, hpm] at h
      | true =>
        simp [List.find?_cons, hpm] at h
        subst h
        refine ⟨Nat.lt_succ_self m, hpm, ?_⟩
        intro j hj
        exact (findRange_none.mp hm) j hj

/-- Conversely, an index satisfying the predicate below which every index
fails it is what `find?` over `List.range` returns. -/
theorem findRange_of_min {n i : Nat} {p : Nat → Bool}
    (hp : p i = true) (hmin : ∀ j, j < i → p j = false) (hn : i < n) :
    (List.range n).find? p = some i := by
  cases hf : (List.range n).find? p with
  | none =>
    have := findRange_none.mp hf i hn
    rw [hp] at this; exact absurd this (by simp)
  | some k =>
    obtain ⟨hk, hpk, hkmin⟩ := findRange_min hf
    rcases Nat.lt_trichotomy i k with h | h | h
    · have := hkmin i h; rw [hp] at this; exact absurd this (by simp)
    · rw [h]
    · have := hmin k h; rw [hpk] at this; exact absurd this (by simp)

/-- The head of a filtered list is its first element satisfying the
predicate. -/
theorem head?_filter {α : Type} (p : α → Bool) (l : List α) :
    (l.filter p).head? = l.find? p := by
  induction l with
  | nil => rfl
  | cons a t ih =>
    by_cases h : p a = true
    · simp [List.filter_cons, List.find?_cons, h]
    · simp only [Bool.not_eq_true] at h
      simp [List.filter_cons, List.find?_cons, h, ih]

/-- An ASCII digit character has code point between 48 and 57. -/
theorem isDigit_bounds {c : Char} (h : c.isDigit = true) :
    48 ≤ c.toNat ∧ c.toNat ≤ 57 := by
  simp [Char.isDigit, Char.le_def] at h
  exact h

/-- An ASCII digit character is a Unicode decimal digit whose Nd run
starts at code point 48, so `digitVal` is its ASCII value. -/
theorem digitVal_ascii {c : Char} (h : c.isDigit = true) :
    digitVal c = c.toNat - 48 := by
  obtain ⟨h1, h2⟩ := isDigit_bounds h
  have hnd : ndStart c = some 48 := by
    unfold ndStart ndStarts
    apply List.find?_cons_of_pos
    rw [Bool.and_eq_true]
    exact ⟨decide_eq_true h1, decide_eq_true (by omega)⟩
  simp [digitVal, hnd]

/-- Every Nd digit run lies inside an alphanumeric range: checked over the
two concrete tables. -/
theorem ndCovered :
    ndStarts.all
      (fun s => alnumRanges.any (fun r => decide (r.1 ≤ s) && decide (s + 9 ≤ r.2))) = true := by
  decide

/-- A decimal digit is a word character. -/
theorem isWordChar_of_isDigitNd {c : Char} (h : isDigitNd c = true) :
    isWordChar c = true := by
  rw [isDigitNd] at h
  cases hs : ndStart c with
  | none => rw [hs] at h; simp at h
  | some t =>
    have hps := List.find?_some hs
    have hmem := List.mem_of_find?_eq_some hs
    simp only [Bool.and_eq_true, decide_eq_true_eq] at hps
    have hcov := List.all_eq_true.mp ndCovered t hmem
    rw [List.any_eq_true] at hcov
    obtain ⟨r, hr, hrs⟩ := hcov
    simp only [Bool.and_eq_true, decide_eq_true_eq] at hrs
    rw [isWordChar, Bool.or_eq_true]
    left
    rw [List.any_eq_true]
    refine ⟨r, hr, ?_⟩
    simp only [Bool.and_eq_true, decide_eq_true_eq]
    omega

/-- A list of length 13 is a 13-element literal. -/
theorem exists13 (s : List Char) (h : s.length = 13) :
    ∃ a0 a1 a2 a3 a4 a5 a6 a7 a8 a9 a10 a11 a12,
      s = [a0, a1, a2, a3, a4, a5, a6, a7, a8, a9, a10, a11, a12] := by
  rcases s with _ | ⟨a0, s⟩; · simp at h
  rcases s with _ | ⟨a1, s⟩; · simp at h
  rcases s with _ | ⟨a2, s⟩; · simp at h
  rcases s with _ | ⟨a3, s⟩; · simp at h
  rcases s with _ | ⟨a4, s⟩; · simp at h
  rcases s with _ | ⟨a5, s⟩; · simp at h
  rcases s with _ | ⟨a6, s⟩; · simp at h
  rcases s with _ | ⟨a7, s⟩; · simp at h
  rcases s with _ | ⟨a8, s⟩; · simp at h
  rcases s with _ | ⟨a9, s⟩; · simp at h
  rcases s with _ | ⟨a10, s⟩; · simp at h
  rcases s with _ | ⟨a11, s⟩; · simp at h
  rcases s with _ | ⟨a12, s⟩; · simp at h
  rcases s with _ | ⟨a13, s⟩
  · exact ⟨a0, a1, a2, a3, a4, a5, a6, a7, a8, a9, a10, a11, a12, rfl⟩
  · simp at h

/-- A list of length 12 is a 12-element literal. -/
theorem exists12 (s : List Char) (h : s.length = 12) :
    ∃ a0 a1 a2 a3 a4 a5 a6 a7 a8 a9 a10 a11,
      s = [a0, a1, a2, a3, a4, a5, a6, a7, a8, a9, a10, a11] := by
  rcases s with _ | ⟨a0, s⟩; · simp at h
  rcases s with _ | ⟨a1, s⟩; · simp at h
  rcases s with _ | ⟨a2, s⟩; · simp at h
  rcases s with _ | ⟨a3, s⟩; · simp at h
  rcases s with _ | ⟨a4, s⟩; · simp at h
  rcases s with _ | ⟨a5, s⟩; · simp at h
  rcases s with _ | ⟨a6, s⟩; · simp at h
  rcases s with _ | ⟨a7, s⟩; · simp at h
  rcases s with _ | ⟨a8, s⟩; · simp at h
  rcases s with _ | ⟨a9, s⟩; · simp at h
  rcases s with _ | ⟨a10, s⟩; · simp at h
  rcases s with _ | ⟨a11, s⟩; · simp at h
  rcases s with _ | ⟨a12, s⟩
  · exact ⟨a0, a1, a2, a3, a4, a5, a6, a7, a8, a9, a10, a11, rfl⟩
  · simp at h

/-- On values at most 9, `Nat.digitChar` is inverted by `digitVal`. -/
theorem digitVal_digitChar {k : Nat} (hk : k ≤ 9) :
    digitVal (Nat.digitChar k) = k := by
  interval_cases k <;> rfl

/-- The mod-11 control value equals a digit `d ≤ 9` iff `d` equals it and
it is not 10. -/
theorem control_iff (S d : Nat) (hd : d ≤ 9) :
    ((if S % 11 = 0 then 0 else 11 - S % 11) = d) ↔
      (d = (if S % 11 = 0 then 0 else 11 - S % 11) ∧
        (if S % 11 = 0 then 0 else 11 - S % 11) ≠ 10) := by
  by_cases h : S % 11 = 0 <;> simp [h] <;> omega

/-! ## Claims about the Checksum Validator -/

/-- C2: for every 13-character string of decimal digits, `validate_emso`
returns `true` iff digit 12 equals the control digit computed by the spec's
formula (weighted sum of digits 0–11 with weights
`[7, 6, 5, 4, 3, 2, 7, 6, 5, 4, 3, 2]`, reduced mod 11, complemented), and
`false` otherwise; being boolean-valued, it has no other outcome. -/
theorem C2_checksum_validator (s : List Char) (hlen : s.length = 13)
    (hdig : ∀ c ∈ s, c.isDigit = true) :
    validate_emso s = true ↔
      digitVal (s.getD 12 ' ') = spec_control (fun i => digitVal (s.getD i ' ')) := by
  obtain ⟨a0, a1, a2, a3, a4, a5, a6, a7, a8, a9, a10, a11, a12, rfl⟩ := exists13 s hlen
  simp only [validate_emso, spec_control, spec_weighted_sum, emso_factor_map,
    List.range_succ, List.range_zero, List.map_append, List.map_cons, List.map_nil,
    List.sum_append, List.sum_cons, List.sum_nil, List.nil_append, List.cons_append,
    List.getD_cons_zero, List.getD_cons_succ, beq_iff_eq]
  ring_nf
  exact eq_comm

/-- C2 witness: the theorem applied to the all-zeros identifier. -/
theorem C2_witness :
    validate_emso ("0000000000000".toList) = true ↔
      digitVal (("0000000000000".toList).getD 12 ' ') =
        spec_control (fun i => digitVal (("0000000000000".toList).getD i ' ')) :=
  C2_checksum_validator ("0000000000000".toList) (by decide) (by decide)

/-- C4: for a fixed 12-digit prefix and a digit in position 12, the
validator accepts exactly the computed control digit — and accepts nothing
when that control digit is 10, since no decimal digit equals 10. -/
theorem C4_unique_control (p : List Char) (c : Char) (hlen : p.length = 12)
    (hdig : ∀ x ∈ p, x.isDigit = true) (hc : c.isDigit = true) :
    validate_emso (p ++ [c]) = true ↔
      (digitVal c = emso_control_of p ∧ emso_control_of p ≠ 10) := by
  obtain ⟨a0, a1, a2, a3, a4, a5, a6, a7, a8, a9, a10, a11, rfl⟩ := exists12 p hlen
  have hcb := isDigit_bounds hc
  simp only [validate_emso, emso_control_of, spec_control, spec_weighted_sum,
    emso_factor_map, List.range_succ, List.range_zero, List.map_append,
    List.map_cons, List.map_nil, List.sum_append, List.sum_cons, List.sum_nil,
    List.nil_append, List.cons_append, List.getD_cons_zero, List.getD_cons_succ,
    beq_iff_eq]
  ring_nf
  refine control_iff _ _ ?_
  rw [digitVal_ascii hc]
  omega

/-- C4 witness: the theorem applied to the all-zeros prefix and the
candidate 13th digit `'0'`. -/
theorem C4_witness :
    validate_emso ("000000000000".toList ++ ['0']) = true ↔
      (digitVal '0' = emso_control_of ("000000000000".toList) ∧
        emso_control_of ("000000000000".toList) ≠ 10) :=
  C4_unique_control ("000000000000".toList) '0' (by decide) (by decide) (by decide)

/-- C5 counterexample: for the 12-digit prefix `000000000006` the computed
control digit is 10, so "appending that digit" cannot form a 13-character
digit string at all: appending its digit character yields a string the
validator rejects, and indeed no decimal digit appended to this prefix
validates.  The round trip therefore does not "always yield true". -/
theorem C5_counterexample :
    emso_control_of ("000000000006".toList) = 10 ∧
    validate_emso ("000000000006".toList ++
      [Nat.digitChar (emso_control_of ("000000000006".toList))]) = false ∧
    ((List.range 10).all
      (fun d => !validate_emso ("000000000006".toList ++ [Nat.digitChar d])) = true) := by
  decide

/-- C5 (amended): for every 12-digit prefix whose computed control digit is
at most 9, appending that digit's character to the prefix and validating the
result yields `true`. -/
theorem C5_round_trip (p : List Char) (hlen : p.length = 12)
    (hdig : ∀ x ∈ p, x.isDigit = true) (hctrl : emso_control_of p ≤ 9) :
    validate_emso (p ++ [Nat.digitChar (emso_control_of p)]) = true := by
  obtain ⟨a0, a1, a2, a3, a4, a5, a6, a7, a8, a9, a10, a11, rfl⟩ := exists12 p hlen
  simp only [validate_emso, emso_factor_map, List.range_succ, List.range_zero,
    List.map_append, List.map_cons, List.map_nil, List.sum_append, List.sum_cons,
    List.sum_nil, List.nil_append, List.cons_append, List.getD_cons_zero,
    List.getD_cons_succ, beq_iff_eq]
  rw [digitVal_digitChar hctrl]
  simp only [emso_control_of, spec_control, spec_weighted_sum,
    List.getD_cons_zero, List.getD_cons_succ]
  ring_nf

/-- C5 witness: the amended round trip applied to the all-zeros prefix. -/
theorem C5_witness :
    validate_emso ("000000000000".toList ++
      [Nat.digitChar (emso_control_of ("000000000000".toList))]) = true :=
  C5_round_trip ("000000000000".toList) (by decide) (by decide) (by decide)

/-! ## Lemmas about the Identifier Locator -/

/-- Proposition-level characterization of a `\b\d{13}\b` match position. -/
theorem matchAt_iff {text : List Char} {i : Nat} :
    matchAt text i = true ↔
      i + 13 ≤ text.length ∧
      (i = 0 ∨ isWordChar (text.getD (i - 1) ' ') = false) ∧
      (∀ k, k < 13 → isDigitNd (text.getD (i + k) ' ') = true) ∧
      (i + 13 = text.length ∨ isWordChar (text.getD (i + 13) ' ') = false) := by
  simp [matchAt, digitsRun, List.all_eq_true, Bool.not_eq_true', and_assoc]

/-- Match positions never overlap: every character strictly inside a match
is a digit, hence a word character, so no word boundary is available for a
second match to start inside it. -/
theorem matchAt_no_overlap {text : List Char} {i j : Nat}
    (hi : matchAt text i = true) (hij : i < j) (hj : j < i + 13) :
    matchAt text j = false := by
  rw [Bool.eq_false_iff]
  intro hjt
  obtain ⟨_, hb, _, _⟩ := matchAt_iff.mp hjt
  obtain ⟨hlen, _, hdig, _⟩ := matchAt_iff.mp hi
  rcases hb with hb | hb
  · omega
  · have hd := hdig (j - 1 - i) (by omega)
    rw [show i + (j - 1 - i) = j - 1 from by omega] at hd
    rw [isWordChar_of_isDigitNd hd] at hb
    exact absurd hb (by simp)

/-- Membership in the result of `findall13`. -/
theorem mem_findall13 {text s : List Char} :
    s ∈ findall13 text ↔
      ∃ i, matchAt text i = true ∧ s = (text.drop i).take 13 := by
  simp only [findall13, emsoPositions, List.mem_map, List.mem_filter,
    List.mem_range]
  constructor
  · rintro ⟨i, ⟨hlt, hm⟩, rfl⟩
    exact ⟨i, hm, rfl⟩
  · rintro ⟨i, hm, rfl⟩
    refine ⟨i, ⟨?_, hm⟩, rfl⟩
    have := (matchAt_iff.mp hm).1
    omega

/-! ## Claims about the Identifier Locator -/

/-- C3 counterexample: in the text `"a1234567890123"` the 13-digit run at
position 1 is bounded by the non-digit `'a'` on the left and the end of the
text on the right, so the claim's criterion holds at position 1 — yet the
regex `\b\d{13}\b` finds nothing, because `'a'` is a word character and no
word boundary precedes the run. -/
theorem C3_counterexample :
    specDigitBounded ("a1234567890123".toList) 1 = true ∧
    findall13 ("a1234567890123".toList) = [] := by
  decide

/-- C3 (amended): the Identifier Locator matches exactly the runs of 13
consecutive decimal digits bounded on each side by a non-WORD character
(one that is neither alphanumeric in Python's Unicode sense nor an
underscore) or the start/end of the text; in particular, a 13-digit
substring embedded in an unbroken run of 14 or more digits never
matches. -/
theorem C3_word_boundary (text : List Char) :
    (∀ s, s ∈ findall13 text ↔
      ∃ i, i + 13 ≤ text.length ∧
        (i = 0 ∨ isWordChar (text.getD (i - 1) ' ') = false) ∧
        (∀ k, k < 13 → isDigitNd (text.getD (i + k) ' ') = true) ∧
        (i + 13 = text.length ∨ isWordChar (text.getD (i + 13) ' ') = false) ∧
        s = (text.drop i).take 13) ∧
    (∀ i, i + 14 ≤ text.length →
      (∀ k, k < 14 → isDigitNd (text.getD (i + k) ' ') = true) →
      ∀ j, i ≤ j → j + 13 ≤ i + 14 → matchAt text j = false) := by
  constructor
  · intro s
    rw [mem_findall13]
    constructor
    · rintro ⟨i, hm, rfl⟩
      obtain ⟨h1, h2, h3, h4⟩ := matchAt_iff.mp hm
      exact ⟨i, h1, h2, h3, h4, rfl⟩
    · rintro ⟨i, h1, h2, h3, h4, rfl⟩
      exact ⟨i, matchAt_iff.mpr ⟨h1, h2, h3, h4⟩, rfl⟩
  · intro i hlen hdig j hij hj13
    rw [Bool.eq_false_iff]
    intro hm
    obtain ⟨_, hb, _, hr⟩ := matchAt_iff.mp hm
    have hji : j = i ∨ j = i + 1 := by omega
    rcases hji with rfl | rfl
    · have hd := hdig 13 (by omega)
      rcases hr with hr | hr
      · omega
      · rw [isWordChar_of_isDigitNd hd] at hr
        exact absurd hr (by simp)
    · have hd := hdig 0 (by omega)
      rw [Nat.add_zero] at hd
      rcases hb with hb | hb
      · omega
      · rw [show i + 1 - 1 = i from by omega] at hb
        rw [isWordChar_of_isDigitNd hd] at hb
        exact absurd hb (by simp)

/-- C3 witness: inside the 14-digit text `"12345678901234"` no 13-digit
substring matches; the amended theorem applied at position 0. -/
theorem C3_witness : matchAt ("12345678901234".toList) 0 = false :=
  (C3_word_boundary ("12345678901234".toList)).2 0 (by decide) (by decide)
    0 (by decide) (by decide)

/-- C6: when a leftmost match position exists, `find_valid_emso` returns
that run together with the validator's verdict on it — the verdict is
computed on the first run only, whether or not it validates. -/
theorem C6_first_match (text : List Char) (i : Nat)
    (hm : matchAt text i = true) (hmin : ∀ j, j < i → matchAt text j = false) :
    find_valid_emso text =
      .found ((text.drop i).take 13) (validate_emso ((text.drop i).take 13)) := by
  have hin : i < text.length + 1 := by
    have := (matchAt_iff.mp hm).1
    omega
  have hfind : (List.range (text.length + 1)).find? (fun j => matchAt text j) = some i :=
    findRange_of_min hm hmin hin
  have hh : (emsoPositions text).head? = some i := by
    rw [emsoPositions, head?_filter]
    exact hfind
  cases hps : emsoPositions text with
  | nil => rw [hps] at hh; simp at hh
  | cons a rest =>
    rw [hps] at hh
    simp at hh
    rw [hh] at hps
    have hfa : findall13 text =
        ((text.drop i).take 13) :: rest.map (fun k => (text.drop k).take 13) := by
      rw [findall13, hps]
      rfl
    simp [find_valid_emso, hfa]

/-- C6 witness: the first 13-digit run is returned with its failing verdict
even though a later run (`0000000000000`) would validate. -/
theorem C6_witness :
    find_valid_emso ("1234567890123 0000000000000".toList) =
      .found ("1234567890123".toList) false :=
  (C6_first_match ("1234567890123 0000000000000".toList) 0 (by decide)
    (fun j hj => absurd hj (Nat.not_lt_zero j))).trans (by decide)

/-- C8 counterexample: the program's `\d` is Unicode, so the Identifier
Locator can return a candidate of thirteen Arabic-Indic digits — a string
containing no ASCII decimal digit at all. -/
theorem C8_counterexample :
    ("٠١٢٣٤٥٦٧٨٩٠١٢".toList) ∈ findall13 ("٠١٢٣٤٥٦٧٨٩٠١٢".toList) ∧
    ¬ (∀ c ∈ ("٠١٢٣٤٥٦٧٨٩٠١٢".toList), c.isDigit = true) := by
  decide

/-- C8 (amended): every candidate returned by the Identifier Locator is
exactly 13 characters long and consists only of Unicode decimal digits
(category Nd, the class `\d` matches) — not necessarily ASCII 0–9. -/
theorem C8_candidate_invariant (text s : List Char)
    (hs : s ∈ findall13 text) :
    s.length = 13 ∧ ∀ c ∈ s, isDigitNd c = true := by
  obtain ⟨i, hm, rfl⟩ := mem_findall13.mp hs
  obtain ⟨hlen, _, hdig, _⟩ := matchAt_iff.mp hm
  have hdl : (text.drop i).length = text.length - i := List.length_drop i text
  have hlen13 : ((text.drop i).take 13).length = 13 := by
    rw [List.length_take, hdl]
    omega
  refine ⟨hlen13, ?_⟩
  intro c hc
  obtain ⟨k, hk, hck⟩ := List.mem_iff_getElem.mp hc
  have hk13 : k < 13 := by
    rw [hlen13] at hk
    exact hk
  have hikl : i + k < text.length := by omega
  have hc' : c = text.getD (i + k) ' ' := by
    rw [List.getD_eq_getElem text ' ' hikl, ← hck]
    rw [List.getElem_take, List.getElem_drop]
  rw [hc']
  exact hdig k hk13

/-- C8 witness: the amended invariant holds for the candidate extracted
from `"0000000000000 x"`. -/
theorem C8_witness :
    ("0000000000000".toList).length = 13 ∧
      ∀ c ∈ "0000000000000".toList, isDigitNd c = true :=
  C8_candidate_invariant ("0000000000000 x".toList) ("0000000000000".toList)
    (by decide)

/-! ## Claims about the Document Processor -/

/-- C1: evaluation at a text with no qualifying 13-digit run.  The
Identifier Locator itself does signal "not found" without an error, but
`process_pdf` unpacks the resulting 3-tuple into two variables and raises
`ValueError` instead of producing a record with absent fields. -/
theorem C1_not_found_raises :
    find_valid_emso ("hello world".toList) =
      .notFound "No 13-digit number found" ∧
    process_pdf "doc.pdf" ("hello world".toList) =
      .error (.valueError "too many values to unpack (expected 2)") :=
  ⟨by decide, rfl⟩

/-- C9: evaluation of `process_pdf`.  Empty text is skipped with "no
result" as claimed; but a non-empty text without a 13-digit run raises
`ValueError` (the 3-tuple/2-tuple unpacking mismatch), contradicting
"without raising any exception", while a text with a run yields the full
record. -/
theorem C9_document_processor :
    process_pdf "empty.pdf" ("".toList) = .ok none ∧
    process_pdf "abc.pdf" ("abc".toList) =
      .error (.valueError "too many values to unpack (expected 2)") ∧
    process_pdf "ok.pdf" ("id 0000000000000".toList) =
      .ok (some { fileName := "ok.pdf", stevilkaDokumenta := none,
                  emso := some ("0000000000000".toList), emsoIsValid := true }) :=
  ⟨rfl, rfl, rfl⟩

/-! ## Lemmas about the Reference Locator -/

/-- An occurrence of the label fits inside the text. -/
theorem occursAt_le {text : List Char} {i : Nat} (h : occursAt text i = true) :
    i + keyChars.length ≤ text.length := by
  rw [occursAt, List.isPrefixOf_iff_prefix] at h
  have hle := h.length_le
  rw [List.length_drop] at hle
  have h9 : keyChars.length = 9 := by decide
  omega

/-- Python's `text.find` of the label misses iff the label occurs nowhere. -/
theorem findSub_none_iff {text : List Char} :
    findSub text keyChars = none ↔ ∀ i, occursAt text i = false := by
  rw [findSub]
  constructor
  · intro h i
    by_cases hi : i < text.length + 1
    · exact findRange_none.mp h i hi
    · rw [Bool.eq_false_iff]
      intro hocc
      have := occursAt_le hocc
      have h9 : keyChars.length = 9 := by decide
      omega
  · intro h
    exact findRange_none.mpr (fun j _ => h j)

/-- Python's `text.find` of the label returns the leftmost occurrence. -/
theorem findSub_of_min {text : List Char} {i : Nat}
    (hp : occursAt text i = true) (hmin : ∀ j, j < i → occursAt text j = false) :
    findSub text keyChars = some i := by
  apply findRange_of_min hp hmin
  have := occursAt_le hp
  have h9 : keyChars.length = 9 := by decide
  omega

/-- If `text.find("\n", start)` misses, no position from `start` on holds a
newline. -/
theorem findNewlineFrom_none {text : List Char} {start : Nat}
    (h : findNewlineFrom text start = none) :
    ∀ j, start ≤ j → j < text.length → text.getD j ' ' ≠ '\n' := by
  intro j hs hj hnl
  have hfalse := findRange_none.mp h j hj
  rcases Bool.and_eq_false_iff.mp hfalse with h1 | h1
  · exact absurd hs (decide_eq_false_iff_not.mp h1)
  · exact absurd hnl (beq_eq_false_iff_ne.mp h1)

/-- If `text.find("\n", start)` returns `e`, then `e` is the first newline
position at or after `start`. -/
theorem findNewlineFrom_min {text : List Char} {start e : Nat}
    (h : findNewlineFrom text start = some e) :
    start ≤ e ∧ e < text.length ∧ text.getD e ' ' = '\n' ∧
      ∀ j, start ≤ j → j < e → text.getD j ' ' ≠ '\n' := by
  obtain ⟨he, hp, hmin⟩ := findRange_min h
  simp only [Bool.and_eq_true, decide_eq_true_eq, beq_iff_eq] at hp
  refine ⟨hp.1, he, hp.2, ?_⟩
  intro j hs hj hnl
  have hfalse := hmin j hj
  rcases Bool.and_eq_false_iff.mp hfalse with h1 | h1
  · exact absurd hs (decide_eq_false_iff_not.mp h1)
  · exact absurd hnl (beq_eq_false_iff_ne.mp h1)

/-- Conversely, the first newline position at or after `start` is what
`text.find("\n", start)` returns. -/
theorem findNewlineFrom_of_min {text : List Char} {start e : Nat}
    (hse : start ≤ e) (hel : e < text.length) (hnl : text.getD e ' ' = '\n')
    (hmin : ∀ j, j < e → start ≤ j → text.getD j ' ' ≠ '\n') :
    findNewlineFrom text start = some e := by
  apply findRange_of_min _ _ hel
  · rw [Bool.and_eq_true]
    exact ⟨decide_eq_true hse, beq_iff_eq.mpr hnl⟩
  · intro j hj
    by_cases hs : start ≤ j
    · simp only [Bool.and_eq_false_iff]
      right
      rw [beq_eq_false_iff_ne]
      exact hmin j hj hs
    · simp [hs]

/-- The head of whitespace-dropping is not whitespace. -/
theorem dropWhile_head?_not {p : Char → Bool} {l : List Char} {a : Char}
    (h : (l.dropWhile p).head? = some a) : p a = false := by
  induction l with
  | nil => simp [List.dropWhile] at h
  | cons x t ih =>
    rw [List.dropWhile_cons] at h
    by_cases hx : p x = true
    · rw [if_pos hx] at h
      exact ih h
    · rw [if_neg hx, List.head?_cons] at h
      cases h
      exact Bool.not_eq_true _ |>.mp hx

/-- A list whose head does not satisfy `p` is unchanged by `dropWhile p`. -/
theorem dropWhile_eq_self_of_head {p : Char → Bool} {l : List Char}
    (h : ∀ a, l.head? = some a → p a = false) : l.dropWhile p = l := by
  cases l with
  | nil => rfl
  | cons x t =>
    have hx := h x rfl
    rw [List.dropWhile_cons, hx]
    simp

/-- A nonempty `dropWhile` keeps the last element of the list. -/
theorem getLast?_dropWhile {p : Char → Bool} {l : List Char}
    (h : l.dropWhile p ≠ []) : (l.dropWhile p).getLast? = l.getLast? := by
  conv_rhs => rw [← List.takeWhile_append_dropWhile p l]
  rw [List.getLast?_append]
  cases hd : (l.dropWhile p).getLast? with
  | none => exact absurd (List.getLast?_eq_none_iff.mp hd) h
  | some b => rfl

/-- Stripping returns a selection of the original characters. -/
theorem stripChars_subset {s : List Char} : ∀ c ∈ stripChars s, c ∈ s := by
  intro c hc
  rw [stripChars, List.mem_reverse] at hc
  have h1 := (List.dropWhile_sublist _).subset hc
  rw [List.mem_reverse] at h1
  exact (List.dropWhile_sublist _).subset h1

/-- The first character of a stripped string is not whitespace. -/
theorem stripChars_head {s : List Char} {a : Char}
    (h : (stripChars s).head? = some a) : isPySpace a = false := by
  rw [stripChars, List.head?_reverse] at h
  by_cases hne :
      (List.dropWhile isPySpace (s.dropWhile isPySpace).reverse) = []
  · rw [hne] at h
    simp at h
  · rw [getLast?_dropWhile hne, List.getLast?_reverse] at h
    exact dropWhile_head?_not h

/-- The last character of a stripped string is not whitespace. -/
theorem stripChars_getLast {s : List Char} {a : Char}
    (h : (stripChars s).getLast? = some a) : isPySpace a = false := by
  rw [stripChars, List.getLast?_reverse] at h
  exact dropWhile_head?_not h

/-- Stripping an already-stripped string changes nothing. -/
theorem stripChars_idem (s : List Char) : stripChars (stripChars s) = stripChars s := by
  have hA : (stripChars s).dropWhile isPySpace = stripChars s :=
    dropWhile_eq_self_of_head (fun a ha => stripChars_head ha)
  rw [stripChars, hA]
  have hB : (stripChars s).reverse.dropWhile isPySpace = (stripChars s).reverse := by
    apply dropWhile_eq_self_of_head
    intro a ha
    rw [List.head?_reverse] at ha
    exact stripChars_getLast ha
  rw [hB, List.reverse_reverse]

/-- If no position of `text` in `[start, start + m)` holds a newline, the
corresponding slice holds none. -/
theorem slice_no_newline {text : List Char} {start m : Nat}
    (hno : ∀ j, start ≤ j → j < start + m → j < text.length →
      text.getD j ' ' ≠ '\n') :
    ¬ '\n' ∈ (text.drop start).take m := by
  intro hmem
  obtain ⟨k, hk, hck⟩ := List.mem_iff_getElem.mp hmem
  have hkb : k < m ∧ k < text.length - start := by
    rw [List.length_take, List.length_drop] at hk
    omega
  have hkl : start + k < text.length := by omega
  have hgd : text.getD (start + k) ' ' = '\n' := by
    rw [List.getD_eq_getElem text ' ' hkl, ← hck]
    rw [List.getElem_take, List.getElem_drop]
  exact hno (start + k) (by omega) (by omega) hkl hgd

/-! ## Claims about the Reference Locator -/

/-- C7: the Reference Locator returns `none` exactly when the label
`"Številka:"` occurs nowhere; when its leftmost occurrence is at `i`, the
result is the slice from just after the label up to the first following
newline — or up to the end of the text when no newline follows — with
surrounding whitespace stripped (any resulting string, empty included). -/
theorem C7_reference_locator (text : List Char) :
    (get_stevilka text = none ↔ ∀ i, occursAt text i = false) ∧
    (∀ i, occursAt text i = true → (∀ j, j < i → occursAt text j = false) →
      ((∀ e, e < text.length → i + keyChars.length ≤ e →
          text.getD e ' ' = '\n' →
          (∀ j, j < e → i + keyChars.length ≤ j → text.getD j ' ' ≠ '\n') →
          get_stevilka text = some (stripChars
            ((text.drop (i + keyChars.length)).take (e - (i + keyChars.length))))) ∧
        ((∀ j, j < text.length → i + keyChars.length ≤ j →
            text.getD j ' ' ≠ '\n') →
          get_stevilka text = some (stripChars
            ((text.drop (i + keyChars.length)).take
              (text.length - (i + keyChars.length))))))) := by
  constructor
  · constructor
    · intro h
      cases hf : findSub text keyChars with
      | none => exact findSub_none_iff.mp hf
      | some idx => simp [get_stevilka, hf] at h
    · intro h
      simp [get_stevilka, findSub_none_iff.mpr h]
  · intro i hi hmin
    have hf : findSub text keyChars = some i := findSub_of_min hi hmin
    constructor
    · intro e hel hse hnl hminNl
      have hn : findNewlineFrom text (i + keyChars.length) = some e :=
        findNewlineFrom_of_min hse hel hnl hminNl
      simp [get_stevilka, hf, hn]
    · intro hno
      have hn : findNewlineFrom text (i + keyChars.length) = none := by
        apply findRange_none.mpr
        intro j hj
        by_cases hs : i + keyChars.length ≤ j
        · rw [Bool.and_eq_false_iff]
          right
          rw [beq_eq_false_iff_ne]
          exact hno j hj hs
        · rw [Bool.and_eq_false_iff]
          left
          exact decide_eq_false_iff_not.mpr hs
      simp [get_stevilka, hf, hn]

/-- C7 witness: the theorem applied to `"Številka: 7\nx"` with the label at
position 0 and the newline at position 11. -/
theorem C7_witness :
    get_stevilka ("Številka: 7\nx".toList) = some (stripChars
      ((("Številka: 7\nx".toList).drop (0 + keyChars.length)).take
        (11 - (0 + keyChars.length)))) :=
  (((C7_reference_locator ("Številka: 7\nx".toList)).2 0 (by decide)
      (by decide)).1) 11 (by decide) (by decide) (by decide) (by decide)

/-- C10: a present Reference Locator value contains no newline, equals its
own stripped form, and neither starts nor ends with a whitespace
character. -/
theorem C10_value_trimmed (text v : List Char)
    (h : get_stevilka text = some v) :
    (¬ '\n' ∈ v) ∧ stripChars v = v ∧
      (∀ a, v.head? = some a → isPySpace a = false) ∧
      (∀ a, v.getLast? = some a → isPySpace a = false) := by
  cases hf : findSub text keyChars with
  | none => simp [get_stevilka, hf] at h
  | some idx =>
    cases hn : findNewlineFrom text (idx + keyChars.length) with
    | none =>
      have hv : v = stripChars ((text.drop (idx + keyChars.length)).take
          (text.length - (idx + keyChars.length))) := by
        simp [get_stevilka, hf, hn] at h
        exact h.symm
      have hslice : ¬ '\n' ∈ (text.drop (idx + keyChars.length)).take
          (text.length - (idx + keyChars.length)) := by
        apply slice_no_newline
        intro j hs hjm hjl
        exact findNewlineFrom_none hn j hs hjl
      refine ⟨?_, ?_, ?_, ?_⟩
      · intro hv'
        rw [hv] at hv'
        exact hslice (stripChars_subset _ hv')
      · rw [hv, stripChars_idem]
      · intro a ha
        rw [hv] at ha
        exact stripChars_head ha
      · intro a ha
        rw [hv] at ha
        exact stripChars_getLast ha
    | some e =>
      obtain ⟨hse, hel, hnl, hminNl⟩ := findNewlineFrom_min hn
      have hv : v = stripChars ((text.drop (idx + keyChars.length)).take
          (e - (idx + keyChars.length))) := by
        simp [get_stevilka, hf, hn] at h
        exact h.symm
      have hslice : ¬ '\n' ∈ (text.drop (idx + keyChars.length)).take
          (e - (idx + keyChars.length)) := by
        apply slice_no_newline
        intro j hs hjm hjl
        exact hminNl j hs (by omega)
      refine ⟨?_, ?_, ?_, ?_⟩
      · intro hv'
        rw [hv] at hv'
        exact hslice (stripChars_subset _ hv')
      · rw [hv, stripChars_idem]
      · intro a ha
        rw [hv] at ha
        exact stripChars_head ha
      · intro a ha
        rw [hv] at ha
        exact stripChars_getLast ha

/-- C10 witness: the theorem applied to `"Številka: AB\nx"`, whose
reference value is `"AB"`. -/
theorem C10_witness :
    (¬ '\n' ∈ "AB".toList) ∧ stripChars ("AB".toList) = "AB".toList ∧
      (∀ a, ("AB".toList).head? = some a → isPySpace a = false) ∧
      (∀ a, ("AB".toList).getLast? = some a → isPySpace a = false) :=
  C10_value_trimmed ("Številka: AB\nx".toList) ("AB".toList) (by decide)
